import Mathlib

/-!
Verification development for the trading-bot repository.

Shallow embedding of the Python sources in Lean 4:
pure functions of the code become Lean functions, stateful methods become
explicit state-passing functions, `Decimal` arithmetic is modelled by `ℚ`
(the spec demands arbitrary-precision decimal arithmetic for all monetary
fields), Python dicts become insertion-ordered association lists, and
fallible code returns `Except`.  Each definition is translated from the
corresponding function of the source, file by file.
-/

set_option autoImplicit false

namespace TradeBot

/-! Section: Association-list helpers: the embedding of Python `dict`
`alookup` is `d.get k`, `aupdate` is `d[k] = v` (in-place replacement keeps
insertion order, a fresh key is appended, exactly as CPython dicts behave),
`aremove` is `d.pop(k, None)`. -/

def alookup {κ α : Type} [DecidableEq κ] : List (κ × α) → κ → Option α
  | [], _ => none
  | (k, v) :: rest, key => if k = key then some v else alookup rest key

def aupdate {κ α : Type} [DecidableEq κ] : List (κ × α) → κ → α → List (κ × α)
  | [], key, v => [(key, v)]
  | (k, w) :: rest, key, v =>
      if k = key then (k, v) :: rest else (k, w) :: aupdate rest key v

def aremove {κ α : Type} [DecidableEq κ] : List (κ × α) → κ → List (κ × α)
  | [], _ => []
  | (k, w) :: rest, key =>
      if k = key then rest else (k, w) :: aremove rest key

/-! Section: Shared enumerations (src/bot/types.py) -/

inductive OrderSide
  | BUY
  | SELL
deriving DecidableEq, Repr

inductive OrderType
  | MARKET
  | LIMIT
  | STOP_LOSS
  | STOP_LOSS_LIMIT
  | TAKE_PROFIT
  | TAKE_PROFIT_LIMIT
  | LIMIT_MAKER
deriving DecidableEq, Repr

inductive OrderStatus
  | NEW
  | PARTIALLY_FILLED
  | FILLED
  | CANCELED
  | PENDING_CANCEL
  | REJECTED
  | EXPIRED
deriving DecidableEq, Repr

inductive TimeInForce
  | GTC
  | IOC
  | FOK
deriving DecidableEq, Repr

/-! Section: Accounting (src/bot/accounting.py, AccountingManager)

Only the in-memory effects are embedded; the database writes mirror the
in-memory state and are out of scope (the spec treats persistence as an
abstract `TradeStore`). -/

/-- Fill fields used by `AccountingManager` (src/bot/types.py, `Fill`). -/
structure AccFill where
  symbol : String
  side : OrderSide
  quantity : ℚ
  price : ℚ
  commission : ℚ
deriving DecidableEq, Repr

/-- Position fields mutated by `AccountingManager._update_position`. -/
structure AccPosition where
  size : ℚ
  entry_price : ℚ
  realized_pnl : ℚ
deriving DecidableEq, Repr

/-- In-memory state of `AccountingManager` (constructor of accounting.py). -/
structure AccState where
  positions : List (String × AccPosition)
  daily_pnl : List (String × ℚ)
  total_pnl : ℚ
  total_fees : ℚ
  trades : List AccFill
deriving DecidableEq, Repr

/-- Fresh `AccountingManager` in-memory state (accounting.py `__init__`). -/
def AccState.initial : AccState :=
  { positions := [], daily_pnl := [], total_pnl := 0, total_fees := 0, trades := [] }

/-- Embedding of `AccountingManager._update_position` (accounting.py lines 250-307).
If a position exists for the symbol: BUY adds to size with weighted entry
price (entry preserved when the new size is zero), SELL subtracts with entry
preserved; realized P&L is added only when the old size is positive and the
new size is not positive, and then equals `(price - entry) * old_size`; the
realized amount is also added to `total_pnl`.  If no position exists, a new
one is created with signed size and entry equal to the fill price. -/
def updatePosition (st : AccState) (f : AccFill) : AccState :=
  match alookup st.positions f.symbol with
  | some cp =>
      let newSize : ℚ :=
        if f.side = OrderSide.BUY then cp.size + f.quantity else cp.size - f.quantity
      let newEntry : ℚ :=
        if f.side = OrderSide.BUY then
          (if newSize ≠ 0 then
            (cp.entry_price * cp.size + f.price * f.quantity) / newSize
           else cp.entry_price)
        else cp.entry_price
      let realized : ℚ :=
        if cp.size > 0 ∧ newSize ≤ 0 then (f.price - cp.entry_price) * cp.size else 0
      let cp' : AccPosition :=
        { size := newSize, entry_price := newEntry, realized_pnl := cp.realized_pnl + realized }
      { st with
          positions := aupdate st.positions f.symbol cp',
          total_pnl := st.total_pnl + realized }
  | none =>
      let np : AccPosition := { size := if f.side = OrderSide.BUY then f.quantity else -f.quantity,
                                entry_price := f.price, realized_pnl := 0 }
      { st with positions := aupdate st.positions f.symbol np }

/-- Embedding of `AccountingManager._update_daily_pnl` (accounting.py lines 339-370):
the in-memory daily P&L is the placeholder `quantity * price * 0.001`. -/
def updateDailyPnl (st : AccState) (f : AccFill) : AccState :=
  let pnl : ℚ := f.quantity * f.price * (1 / 1000)
  { st with daily_pnl := aupdate st.daily_pnl f.symbol ((alookup st.daily_pnl f.symbol).getD 0 + pnl) }

/-- Embedding of `AccountingManager.record_fill` (accounting.py lines 215-248):
append the trade, update the position, update daily P&L, accumulate fees. -/
def recordFill (st : AccState) (f : AccFill) : AccState :=
  let st := { st with trades := st.trades ++ [f] }
  let st := updatePosition st f
  let st := updateDailyPnl st f
  { st with total_fees := st.total_fees + f.commission }

/-- Applying a sequence of fills to a fresh `AccountingManager`. -/
def applyFills (fills : List AccFill) : AccState :=
  fills.foldl recordFill AccState.initial

/-- Observable position size for a symbol (0 when no position is tracked). -/
def accSize (st : AccState) (s : String) : ℚ :=
  ((alookup st.positions s).map (·.size)).getD 0

/-- Observable entry price for a symbol (0 when no position is tracked). -/
def accEntry (st : AccState) (s : String) : ℚ :=
  ((alookup st.positions s).map (·.entry_price)).getD 0

/-- Signed fill quantity: `+qty` for BUY, `-qty` for SELL. -/
def signedQty (f : AccFill) : ℚ :=
  if f.side = OrderSide.BUY then f.quantity else -f.quantity

/-- Sum of signed fill quantities of a sequence, restricted to a symbol. -/
def signedSum (fills : List AccFill) (s : String) : ℚ :=
  (fills.map (fun f => if f.symbol = s then signedQty f else 0)).sum

/-- Realized-P&L amount the code adds for one fill, written from the amended
claim: it is non-zero only when the tracked size is positive and the fill
drives it to zero or below, and then equals `(fillPrice - entry) * oldSize`;
fees are not subtracted from realized P&L. -/
def amendedRealizedDelta (st : AccState) (f : AccFill) : ℚ :=
  if accSize st f.symbol > 0 ∧ accSize st f.symbol + signedQty f ≤ 0 then
    (f.price - accEntry st f.symbol) * accSize st f.symbol
  else 0

/-- Closed-form realized P&L of the specification (spec section 4.8), modelled
from the spec words: per fill with signed delta, an opposing fill realizes
`(price - entry) * min(|size|, |delta|) * sign(size)` with the fee in quote
subtracted; aligned fills (and fills onto a flat book) extend the position
with weighted entry.  Used only to state the original claim of C1. -/
def specClosedFormStep (acc : List (String × (ℚ × ℚ)) × ℚ) (f : AccFill) :
    List (String × (ℚ × ℚ)) × ℚ :=
  let (track, realized) := acc
  let Δ := signedQty f
  match alookup track f.symbol with
  | none => (aupdate track f.symbol (Δ, f.price), realized - f.commission)
  | some (size, entry) =>
      if size = 0 then
        (aupdate track f.symbol (Δ, f.price), realized - f.commission)
      else if (0 < size ∧ 0 < Δ) ∨ (size < 0 ∧ Δ < 0) then
        let newSize := size + Δ
        (aupdate track f.symbol (newSize, (entry * size + f.price * Δ) / newSize),
         realized - f.commission)
      else
        let r := min |size| |Δ|
        let gain := if 0 < size then (f.price - entry) * r else (entry - f.price) * r
        let newSize := size + Δ
        let newEntry := if |Δ| > |size| then f.price else entry
        (aupdate track f.symbol (newSize, newEntry), realized + gain - f.commission)

/-- Closed-form realized P&L of a fill sequence per the spec's position math. -/
def specRealizedPnl (fills : List AccFill) : ℚ :=
  (fills.foldl specClosedFormStep ([], 0)).2

/-! Section: Backtester (src/bot/backtest.py, Backtester)

Timestamps are naturals (epoch milliseconds), kline bars carry the fields the
simulation reads.  The latency PRNG (`random.normalvariate` after
`random.seed(seed)`) is modelled by a seed-determined stream `g : ℕ → ℚ` of
raw draws together with a draw counter in the state; `_simulate_latency`
clamps a draw at zero.  `asyncio.sleep(latency)` delays wall-clock time only,
which the embedding's state does not contain, so the sampled latency is
consumed but influences nothing else — exactly as in the source, where every
order is executed immediately after the sleep. -/

/-- Kline fields read by the backtester (src/bot/types.py, `Kline`). -/
structure BTKline where
  open_time : ℕ
  close_price : ℚ
  volume : ℚ
deriving DecidableEq, Repr

/-- Market data synthesized per bar (backtest.py lines 158-164). -/
structure BTMarketData where
  symbol : String
  timestamp : ℕ
  price : ℚ
  volume : ℚ
  side : OrderSide
deriving DecidableEq, Repr

/-- Signal fields the backtester reads (src/bot/types.py, `TradingSignal`). -/
structure BTSignal where
  symbol : String
  side : OrderSide
  order_type : OrderType
  quantity : ℚ
  price : Option ℚ
  time_in_force : TimeInForce
deriving DecidableEq, Repr

/-- Order fields used by `Backtester._execute_order` (src/bot/types.py, `Order`). -/
structure BTOrder where
  symbol : String
  side : OrderSide
  type : OrderType
  quantity : ℚ
  price : Option ℚ
  time_in_force : TimeInForce
  status : OrderStatus
  executed_qty : ℚ
  cummulative_quote_qty : ℚ
  avg_price : Option ℚ
  created_at : ℕ
deriving DecidableEq, Repr

/-- Fill record the backtester appends to its trades list. -/
structure BTFill where
  symbol : String
  order_id : ℕ
  trade_id : ℕ
  side : OrderSide
  quantity : ℚ
  price : ℚ
  commission : ℚ
  timestamp : ℕ
deriving DecidableEq, Repr

/-- Backtest configuration scalars (backtest.py `__init__`). -/
structure BTConfig where
  initial_capital : ℚ
  commission : ℚ
  slippage : ℚ
deriving DecidableEq, Repr

/-- Mutable simulation state of `Backtester` (backtest.py `__init__` and
`_initialize_backtest`).  `orders_count` is `len(self.orders)`, `rng_index`
is the number of PRNG draws consumed so far. -/
structure BTState where
  current_time : ℕ
  current_capital : ℚ
  positions : List (String × ℚ)
  entry_prices : List (String × ℚ)
  trades : List BTFill
  orders_count : ℕ
  daily_pnl : List (ℕ × ℚ)
  max_drawdown : ℚ
  peak_capital : ℚ
  total_fees : ℚ
  total_slippage : ℚ
  current_prices : List (String × ℚ)
  rng_index : ℕ
deriving DecidableEq, Repr

/-- Embedding of `Backtester._simulate_latency` (backtest.py lines 270-277):
a normal draw (the stream `g` at the current index), clamped at zero. -/
def simulateLatency (g : ℕ → ℚ) (idx : ℕ) : ℚ :=
  max 0 (g idx)

/-- Embedding of `Backtester._calculate_execution_price` (backtest.py lines
279-306).  MARKET applies slippage toward the taker.  LIMIT returns the order
price when `(BUY and price >= current)` or `(SELL and price <= current)` and
the current price otherwise (the `Order not filled` branch still returns
`current_price` to the caller).  A LIMIT order with no price raises a
`TypeError` in the comparison, which the enclosing `except` turns into
`current_price`.  Any other order type returns the current price. -/
def calcExecutionPrice (slippage : ℚ) (order : BTOrder) (currentPrice : ℚ) : ℚ :=
  match order.type with
  | OrderType.MARKET =>
      if order.side = OrderSide.BUY then currentPrice + currentPrice * slippage
      else currentPrice - currentPrice * slippage
  | OrderType.LIMIT =>
      match order.price with
      | some p =>
          if order.side = OrderSide.BUY ∧ p ≥ currentPrice then p
          else if order.side = OrderSide.SELL ∧ p ≤ currentPrice then p
          else currentPrice
      | none => currentPrice
  | _ => currentPrice

/-- Embedding of `Backtester._execute_order` (backtest.py lines 204-268).
A latency draw is consumed and slept away first; a zero price lookup rejects
the order and changes nothing else; otherwise the order fills completely at
`calcExecutionPrice`, a fill is appended, position, entry price, capital and
the fee/slippage totals are updated, and the order becomes FILLED. -/
def executeOrder (g : ℕ → ℚ) (cfg : BTConfig) (st : BTState) (order : BTOrder) :
    BTState × BTOrder :=
  let _latency := simulateLatency g st.rng_index
  let st := { st with rng_index := st.rng_index + 1 }
  let currentPrice := (alookup st.current_prices order.symbol).getD 0
  if currentPrice = 0 then
    (st, { order with status := OrderStatus.REJECTED })
  else
    let executionPrice := calcExecutionPrice cfg.slippage order currentPrice
    let notional := order.quantity * executionPrice
    let fee := notional * cfg.commission
    let fill : BTFill :=
      { symbol := order.symbol, order_id := st.orders_count,
        trade_id := st.trades.length + 1, side := order.side,
        quantity := order.quantity, price := executionPrice, commission := fee,
        timestamp := st.current_time }
    let st := { st with trades := st.trades ++ [fill] }
    let newPos := (alookup st.positions order.symbol).getD 0 +
      (if order.side = OrderSide.BUY then order.quantity else -order.quantity)
    let st := { st with positions := aupdate st.positions order.symbol newPos }
    let st :=
      if newPos ≠ 0 then
        { st with entry_prices := aupdate st.entry_prices order.symbol executionPrice }
      else st
    let st :=
      if order.side = OrderSide.BUY then
        { st with current_capital := st.current_capital - (notional + fee) }
      else
        { st with current_capital := st.current_capital + (notional - fee) }
    let st := { st with
        total_fees := st.total_fees + fee,
        total_slippage := st.total_slippage + |executionPrice - currentPrice| * order.quantity }
    (st, { order with status := OrderStatus.FILLED, executed_qty := order.quantity,
                      cummulative_quote_qty := notional, avg_price := some executionPrice })

/-- Embedding of `Backtester._handle_signal` (backtest.py lines 180-202):
build an order from the signal, append it to the orders list, execute it. -/
def handleSignal (g : ℕ → ℚ) (cfg : BTConfig) (st : BTState) (sig : BTSignal) : BTState :=
  let order : BTOrder :=
    { symbol := sig.symbol, side := sig.side, type := sig.order_type,
      quantity := sig.quantity, price := sig.price,
      time_in_force := sig.time_in_force, status := OrderStatus.NEW,
      executed_qty := 0, cummulative_quote_qty := 0, avg_price := none,
      created_at := st.current_time }
  let st := { st with orders_count := st.orders_count + 1 }
  (executeOrder g cfg st order).1

/-- Milliseconds per day: `datetime.date()` boundaries on epoch-ms timestamps. -/
def msPerDay : ℕ := 86400000

/-- Portfolio value (backtest.py `_update_performance_metrics` lines 316-322):
capital plus `position * current_price` over every non-zero position with a
known price, in position-dict insertion order. -/
def portfolioValue (st : BTState) : ℚ :=
  st.positions.foldl
    (fun acc sp =>
      if sp.2 ≠ 0 ∧ (alookup st.current_prices sp.1).isSome then
        acc + sp.2 * (alookup st.current_prices sp.1).getD 0
      else acc)
    st.current_capital

/-- Embedding of `Backtester._update_performance_metrics` (backtest.py lines
313-340): update peak capital, running max drawdown, and the per-day P&L. -/
def updateMetrics (cfg : BTConfig) (st : BTState) : BTState :=
  let pv := portfolioValue st
  let st := if pv > st.peak_capital then { st with peak_capital := pv } else st
  let drawdown := (st.peak_capital - pv) / st.peak_capital
  let st := if drawdown > st.max_drawdown then { st with max_drawdown := drawdown } else st
  { st with daily_pnl :=
      aupdate st.daily_pnl (st.current_time / msPerDay) (pv - cfg.initial_capital) }

/-- One symbol's slice of a simulation step (backtest.py lines 151-168): the
first kline of the symbol whose open time matches the current timestamp, if
any, updates the current price and is sent to the strategy as market data;
the signals the strategy emits are executed immediately via the
`on_signal = _handle_signal` callback. -/
def stepSymbol {σ : Type} (g : ℕ → ℚ) (cfg : BTConfig)
    (strat : σ → BTMarketData → σ × List BTSignal)
    (data : List (String × List BTKline)) (t : ℕ)
    (acc : BTState × σ) (symbol : String) : BTState × σ :=
  match alookup data symbol with
  | none => acc
  | some ks =>
      match ks.find? (fun k => k.open_time = t) with
      | none => acc
      | some k =>
          let st := { acc.1 with
              current_prices := aupdate acc.1.current_prices symbol k.close_price }
          let md : BTMarketData :=
            { symbol := symbol, timestamp := t, price := k.close_price,
              volume := k.volume, side := OrderSide.BUY }
          let (s', sigs) := strat acc.2 md
          (sigs.foldl (handleSignal g cfg) st, s')

/-- One timestamp of `Backtester._run_simulation` (backtest.py lines 147-174):
set the clock, feed every symbol's bar, process pending orders (a no-op in
the source) and refresh metrics. -/
def stepTimestamp {σ : Type} (g : ℕ → ℚ) (cfg : BTConfig)
    (strat : σ → BTMarketData → σ × List BTSignal)
    (data : List (String × List BTKline)) (symbols : List String)
    (acc : BTState × σ) (t : ℕ) : BTState × σ :=
  let acc := ({ acc.1 with current_time := t }, acc.2)
  let acc := symbols.foldl (stepSymbol g cfg strat data t) acc
  (updateMetrics cfg acc.1, acc.2)

/-- Sorted set of all kline open times of the traded symbols (backtest.py
lines 136-144): collect, deduplicate, sort ascending. -/
def allTimestamps (data : List (String × List BTKline)) (symbols : List String) : List ℕ :=
  ((symbols.foldl
      (fun acc s => match alookup data s with
        | some ks => acc ++ ks.map (·.open_time)
        | none => acc)
      []).dedup).mergeSort (· ≤ ·)

/-- Fresh simulation state (backtest.py `_initialize_backtest` lines 109-131):
zeroed state, and the current price of every symbol primed from its first
kline (0 when the symbol has no data). -/
def initBTState (cfg : BTConfig) (data : List (String × List BTKline))
    (symbols : List String) : BTState :=
  let st : BTState :=
    { current_time := 0, current_capital := cfg.initial_capital, positions := [],
      entry_prices := [], trades := [], orders_count := 0, daily_pnl := [],
      max_drawdown := 0, peak_capital := cfg.initial_capital, total_fees := 0,
      total_slippage := 0, current_prices := [], rng_index := 0 }
  { st with current_prices :=
      (symbols.foldl
        (fun acc s => match alookup data s with
          | some (k :: _) => aupdate acc s k.close_price
          | _ => aupdate acc s 0)
        []) }

/-- Result fields of `Backtester._calculate_results` (backtest.py lines
342-412).  The Sharpe ratio of the source is a deterministic function of the
returned daily series (it is computed through binary floats and a square
root, which ℚ does not carry), so the series itself is returned instead. -/
structure BTResult where
  initial_capital : ℚ
  final_capital : ℚ
  total_return : ℚ
  total_return_pct : ℚ
  max_drawdown : ℚ
  win_rate : ℚ
  total_trades : ℕ
  winning_trades : ℕ
  losing_trades : ℕ
  avg_win : ℚ
  avg_loss : ℚ
  profit_factor : ℚ
  daily_series : List (ℕ × ℚ)
  trades : List BTFill
deriving DecidableEq, Repr

/-- Embedding of `Backtester._calculate_results` (backtest.py lines 342-412):
final capital marks positions to market; every BUY trade is counted as a win
and every SELL as a loss (the source's simplified classification). -/
def calcResults (cfg : BTConfig) (st : BTState) : BTResult :=
  let finalCapital := portfolioValue st
  let totalReturn := finalCapital - cfg.initial_capital
  let winning := (st.trades.filter (fun t => t.side = OrderSide.BUY)).length
  let losing := (st.trades.filter (fun t => ¬(t.side = OrderSide.BUY))).length
  let total := st.trades.length
  { initial_capital := cfg.initial_capital,
    final_capital := finalCapital,
    total_return := totalReturn,
    total_return_pct := totalReturn / cfg.initial_capital,
    max_drawdown := st.max_drawdown,
    win_rate := if total > 0 then (winning : ℚ) / (total : ℚ) else 0,
    total_trades := total,
    winning_trades := winning,
    losing_trades := losing,
    avg_win := if winning > 0 then totalReturn / (winning : ℚ) else 0,
    avg_loss := if losing > 0 then |totalReturn| / (losing : ℚ) else 0,
    profit_factor :=
      (if losing > 0 then |totalReturn| / (losing : ℚ) else 0) |> fun al =>
        if al > 0 then (if winning > 0 then totalReturn / (winning : ℚ) else 0) / al else 0,
    daily_series := st.daily_pnl,
    trades := st.trades }

/-- Embedding of `Backtester.run_backtest` (backtest.py lines 73-178): fresh
state, event-time replay over the sorted timestamps, result computation.
`g` is the latency draw stream determined by the instance's seed. -/
def runBacktest {σ : Type} (g : ℕ → ℚ) (cfg : BTConfig)
    (strat : σ → BTMarketData → σ × List BTSignal) (s0 : σ)
    (data : List (String × List BTKline)) (symbols : List String) :
    BTResult × List BTFill :=
  let acc := (allTimestamps data symbols).foldl
    (stepTimestamp g cfg strat data symbols) (initBTState cfg data symbols, s0)
  (calcResults cfg acc.1, acc.1.trades)

/-! Section: Rate limiter (src/bot/connectors/rate_limiter.py)

Time is a rational number of seconds (`time.time()`), tokens are rationals
(continuous refill adds fractional amounts). -/

/-- Token bucket state (rate_limiter.py `TokenBucket.__init__`). -/
structure TokenBucket where
  capacity : ℚ
  refill_rate : ℚ
  tokens : ℚ
  last_refill : ℚ
deriving DecidableEq, Repr

/-- Embedding of `TokenBucket._refill` (rate_limiter.py lines 59-66). -/
def TokenBucket.refill (b : TokenBucket) (now : ℚ) : TokenBucket :=
  { b with tokens := min b.capacity (b.tokens + (now - b.last_refill) * b.refill_rate),
           last_refill := now }

/-- Embedding of `TokenBucket.consume` (rate_limiter.py lines 41-57): refill,
then debit when enough tokens are available. -/
def TokenBucket.consume (b : TokenBucket) (now : ℚ) (n : ℚ) : Bool × TokenBucket :=
  let b := b.refill now
  if b.tokens ≥ n then (true, { b with tokens := b.tokens - n }) else (false, b)

/-- A bucket freshly constructed with capacity `c` and refill rate `r` at
time `t0` (rate_limiter.py `TokenBucket.__init__`: tokens start full). -/
def TokenBucket.fresh (c r t0 : ℚ) : TokenBucket :=
  { capacity := c, refill_rate := r, tokens := c, last_refill := t0 }

/-- The six buckets and counters of `RateLimiter` (rate_limiter.py lines
106-121). -/
structure RateLimiterState where
  req_second : TokenBucket
  req_minute : TokenBucket
  req_day : TokenBucket
  w_second : TokenBucket
  w_minute : TokenBucket
  w_day : TokenBucket
  total_requests : ℕ
  total_weight : ℚ
  rate_limited_requests : ℕ
deriving DecidableEq, Repr

/-- RateLimiter built from the default conservative limits at time `t0`
(rate_limiter.py lines 92-116). -/
def defaultRateLimiter (t0 : ℚ) : RateLimiterState :=
  { req_second := TokenBucket.fresh 10 10 t0,
    req_minute := TokenBucket.fresh 1200 (1200 / 60) t0,
    req_day := TokenBucket.fresh 200000 (200000 / 86400) t0,
    w_second := TokenBucket.fresh 1200 1200 t0,
    w_minute := TokenBucket.fresh 6000 (6000 / 60) t0,
    w_day := TokenBucket.fresh 1000000 (1000000 / 86400) t0,
    total_requests := 0, total_weight := 0, rate_limited_requests := 0 }

/-- Embedding of `RateLimiter.check_request` (rate_limiter.py lines 144-170):
every one of the six `consume` calls runs — and possibly debits its bucket —
before the results are combined with `all(checks)`. -/
def checkRequest (st : RateLimiterState) (now : ℚ) (weight : ℚ) :
    Bool × RateLimiterState :=
  let c1 := st.req_second.consume now 1
  let c2 := st.req_minute.consume now 1
  let c3 := st.req_day.consume now 1
  let c4 := st.w_second.consume now weight
  let c5 := st.w_minute.consume now weight
  let c6 := st.w_day.consume now weight
  let st := { st with
      req_second := c1.2, req_minute := c2.2, req_day := c3.2,
      w_second := c4.2, w_minute := c5.2, w_day := c6.2 }
  if c1.1 && c2.1 && c3.1 && c4.1 && c5.1 && c6.1 then
    (true, { st with total_requests := st.total_requests + 1,
                     total_weight := st.total_weight + weight })
  else
    (false, { st with rate_limited_requests := st.rate_limited_requests + 1 })

/-! Section: Risk manager (src/bot/risk.py, RiskManager) -/

/-- Risk event as emitted by `RiskManager._trigger_risk_event`. -/
structure RiskEventE where
  event_type : String
  severity : String
deriving DecidableEq, Repr

/-- Configuration limits read by the risk checks (risk.py lines 38-42). -/
structure RiskConfig where
  max_position_size : ℚ
  max_daily_drawdown : ℚ
  max_consecutive_losses : ℕ
  position_limits : List (String × ℚ)
  max_leverage : ℚ
deriving DecidableEq, Repr

/-- Mutable state of `RiskManager` (risk.py lines 33-55); positions are
tracked by their size, which is all `check_signal` reads. -/
structure RiskState where
  positions : List (String × ℚ)
  daily_pnl : List (String × ℚ)
  consecutive_losses : List (String × ℕ)
  is_risk_breach : Bool
  risk_breach_reason : String
  events : List RiskEventE
  risk_checks_performed : ℕ
  risk_events_triggered : ℕ
  signals_rejected : ℕ
deriving DecidableEq, Repr

/-- Signal fields read by `RiskManager.check_signal`. -/
structure RSignal where
  symbol : String
  side : OrderSide
  quantity : ℚ
deriving DecidableEq, Repr

/-- Embedding of `RiskManager._trigger_risk_event` (risk.py lines 348-378). -/
def triggerRiskEvent (st : RiskState) (eventType severity : String) : RiskState :=
  { st with events := st.events ++ [{ event_type := eventType, severity := severity }],
            risk_events_triggered := st.risk_events_triggered + 1 }

/-- Sum of the per-symbol daily P&L values (risk.py line 174). -/
def totalDailyPnl (st : RiskState) : ℚ :=
  st.daily_pnl.foldl (fun a p => a + p.2) 0

/-- New position size a signal would produce (risk.py lines 131-138). -/
def newSizeAfter (st : RiskState) (sig : RSignal) : ℚ :=
  let cur := (alookup st.positions sig.symbol).getD 0
  if sig.side = OrderSide.BUY then cur + sig.quantity else cur - sig.quantity

/-- Embedding of `RiskManager._check_position_limits` (risk.py lines 125-168):
absolute limit first, then the symbol-ratio limit when configured; each
violation emits a WARNING event and fails the check. -/
def checkPositionLimits (cfg : RiskConfig) (st : RiskState) (sig : RSignal) :
    Bool × RiskState :=
  let ns := newSizeAfter st sig
  if |ns| > cfg.max_position_size then
    (false, triggerRiskEvent st ("POSITION_LIMIT_EXCEEDED") ("WARNING"))
  else
    match alookup cfg.position_limits sig.symbol with
    | some ratio =>
        if |ns| > cfg.max_position_size * ratio then
          (false, triggerRiskEvent st ("SYMBOL_POSITION_LIMIT_EXCEEDED") ("WARNING"))
        else (true, st)
    | none => (true, st)

/-- Embedding of `RiskManager._check_daily_drawdown` (risk.py lines 170-191):
the check fails only when the summed daily P&L is STRICTLY below
`-max_daily_drawdown`; on failure a CRITICAL event is emitted and the breach
flag and reason are set. -/
def checkDailyDrawdown (cfg : RiskConfig) (st : RiskState) : Bool × RiskState :=
  if totalDailyPnl st < -cfg.max_daily_drawdown then
    let st := triggerRiskEvent st ("DAILY_DRAWDOWN_EXCEEDED") ("CRITICAL")
    (false, { st with is_risk_breach := true,
                      risk_breach_reason := ("Daily drawdown exceeded") })
  else (true, st)

/-- Embedding of `RiskManager._check_consecutive_losses` (risk.py lines
193-212). -/
def checkConsecutiveLosses (cfg : RiskConfig) (st : RiskState) (sig : RSignal) :
    Bool × RiskState :=
  if (alookup st.consecutive_losses sig.symbol).getD 0 ≥ cfg.max_consecutive_losses then
    (false, triggerRiskEvent st ("CONSECUTIVE_LOSSES_EXCEEDED") ("WARNING"))
  else (true, st)

/-- Embedding of `RiskManager._check_leverage_limits` (risk.py lines 214-236):
the source only rejects when the configured max leverage is below 1. -/
def checkLeverageLimits (cfg : RiskConfig) (st : RiskState) : Bool × RiskState :=
  if cfg.max_leverage < 1 then
    (false, triggerRiskEvent st ("LEVERAGE_LIMIT_EXCEEDED") ("WARNING"))
  else (true, st)

/-- Bump of the rejected-signals counter taken on every `return False` path of
`check_signal`. -/
def rejectSignal (st : RiskState) : RiskState :=
  { st with signals_rejected := st.signals_rejected + 1 }

/-- Counter bump at the top of `check_signal` (risk.py line 86). -/
def bumpChecks (st : RiskState) : RiskState :=
  { st with risk_checks_performed := st.risk_checks_performed + 1 }

/-- Body of `RiskManager.check_signal` (risk.py lines 75-119) without the
enclosing `try/except`: breach gate, then the four checks in order with
short-circuit on the first failure. -/
def checkSignalCore (cfg : RiskConfig) (st : RiskState) (sig : RSignal) :
    Bool × RiskState :=
  let st := bumpChecks st
  if st.is_risk_breach then
    (false, rejectSignal (triggerRiskEvent st ("RISK_BREACH") ("CRITICAL")))
  else
    match checkPositionLimits cfg st sig with
    | (false, st) => (false, rejectSignal st)
    | (true, st) =>
      match checkDailyDrawdown cfg st with
      | (false, st) => (false, rejectSignal st)
      | (true, st) =>
        match checkConsecutiveLosses cfg st sig with
        | (false, st) => (false, rejectSignal st)
        | (true, st) =>
          match checkLeverageLimits cfg st with
          | (false, st) => (false, rejectSignal st)
          | (true, st) => (true, st)

/-- The `try/except` wrapper of `check_signal` (risk.py lines 85-123): a body
that raises is caught and the call returns `False` with the state as it was
at the raise; a body that returns normally passes its result through.  The
exception payload carries the state at the raise, matching Python's in-place
mutation semantics. -/
def runGuarded (body : RiskState → Except (Unit × RiskState) (Bool × RiskState))
    (st : RiskState) : Bool × RiskState :=
  match body st with
  | Except.ok r => r
  | Except.error e => (false, e.2)

/-- The concrete body of `check_signal`: every sub-check carries its own
`try/except` returning a boolean, so the body never raises. -/
def checkSignalBody (cfg : RiskConfig) (sig : RSignal)
    (st : RiskState) : Except (Unit × RiskState) (Bool × RiskState) :=
  Except.ok (checkSignalCore cfg st sig)

/-- Embedding of `RiskManager.check_signal` (risk.py lines 75-123). -/
def checkSignal (cfg : RiskConfig) (st : RiskState) (sig : RSignal) :
    Bool × RiskState :=
  runGuarded (checkSignalBody cfg sig) st

/-- Embedding of `RiskManager.reset_risk_breach` (risk.py lines 385-389). -/
def resetRiskBreach (st : RiskState) : RiskState :=
  { st with is_risk_breach := false, risk_breach_reason := ("") }

/-- All five checks of `check_signal` pass on this state and signal (the
position check runs on the counter-bumped state, as in the source). -/
def allChecksPass (cfg : RiskConfig) (st : RiskState) (sig : RSignal) : Prop :=
  st.is_risk_breach = false ∧
  (checkPositionLimits cfg (bumpChecks st) sig).1 = true ∧
  ¬ totalDailyPnl st < -cfg.max_daily_drawdown ∧
  (alookup st.consecutive_losses sig.symbol).getD 0 < cfg.max_consecutive_losses ∧
  ¬ cfg.max_leverage < 1

/-! Section: Order manager (src/bot/execution.py, OrderManager) -/

/-- Order fields used by `OrderManager.cancel_order`. -/
structure OMOrder where
  symbol : String
  order_id : Option ℕ
  client_order_id : Option String
  status : OrderStatus
deriving DecidableEq, Repr

/-- Mutable state of `OrderManager` (execution.py lines 38-51) restricted to
what `cancel_order` touches, plus two observation channels: the order
updates emitted through `on_order_update` and the count of
`rest_client.cancel_order` round-trips. -/
structure OMState where
  active_orders : List (String × OMOrder)
  order_history : List OMOrder
  orders_canceled : ℕ
  updates_emitted : List OMOrder
  network_cancel_calls : ℕ
deriving DecidableEq, Repr

/-- Embedding of `OrderManager.cancel_order` (execution.py lines 145-187).
`exchange` is the REST client's cancel endpoint; an exception from it is
caught by the enclosing `try/except`, which returns `False`.  The method
looks the id up in `active_orders` only — it never inspects the order's
status — and calls the exchange for every tracked order. -/
def cancelOrder (exchange : OMOrder → Except Unit OMOrder) (st : OMState)
    (orderId : String) : Bool × OMState :=
  match alookup st.active_orders orderId with
  | none => (false, st)
  | some order =>
      let st := { st with network_cancel_calls := st.network_cancel_calls + 1 }
      match exchange order with
      | Except.error _ => (false, st)
      | Except.ok canceledOrder =>
          let canceledOrder := { canceledOrder with status := OrderStatus.CANCELED }
          (true,
            { st with
                active_orders := aremove st.active_orders orderId,
                order_history := st.order_history ++ [canceledOrder],
                orders_canceled := st.orders_canceled + 1,
                updates_emitted := st.updates_emitted ++ [canceledOrder] })

/-- Terminal order states per the spec's state machine. -/
def OrderStatus.isTerminal : OrderStatus → Bool
  | OrderStatus.FILLED => true
  | OrderStatus.CANCELED => true
  | OrderStatus.REJECTED => true
  | OrderStatus.EXPIRED => true
  | _ => false

/-! Section: REST client retry loop (src/bot/connectors/binance_rest.py,
`BinanceRESTClient._make_request`, lines 139-206)

The embedding replays the request against a script of HTTP responses, one
per attempt; the recursion of the source (`return await self._make_request(...)`
on 429) becomes structural recursion on the remaining script.  `slept`
accumulates the seconds spent in `asyncio.sleep(retry_after)`. -/

/-- One scripted HTTP response. -/
structure HttpResp where
  status : ℕ
  retry_after : Option ℕ
  body : ℕ
deriving DecidableEq, Repr

/-- Outcome of `_make_request`: parsed body with total seconds slept, a raised
API error for any non-429 status of 400 or above, or script exhaustion (the
modelling artifact for a retry loop that outlives the scripted responses). -/
inductive ReqOutcome
  | ok (body : ℕ) (totalSlept : ℕ)
  | apiError (status : ℕ)
  | exhausted
deriving DecidableEq, Repr

/-- Embedding of the response handling of `_make_request` (binance_rest.py
lines 179-199): status 429 reads `Retry-After` (default 1), sleeps it and
retries with the same arguments; any other status of 400 or above raises;
anything else parses the body.  Status 418 takes the generic raise branch. -/
def makeRequest : List HttpResp → ℕ → ReqOutcome
  | [], _ => ReqOutcome.exhausted
  | r :: rest, slept =>
      if r.status = 429 then
        makeRequest rest (slept + (r.retry_after.getD 1))
      else if r.status ≥ 400 then ReqOutcome.apiError r.status
      else ReqOutcome.ok r.body slept

/-! Section: Market maker strategy (src/bot/strategies/market_maker.py)

The refresh path for one symbol.  The arithmetic is embedded over ℚ as the
idealized decimal computation the formulas denote. -/

/-- One orderbook level. -/
structure MMLevel where
  price : ℚ
  quantity : ℚ
deriving DecidableEq, Repr

/-- Orderbook sides read by `_calculate_fair_price`. -/
structure MMOrderBook where
  bids : List MMLevel
  asks : List MMLevel
deriving DecidableEq, Repr

/-- Market-maker parameters (market_maker.py lines 33-38). -/
structure MMParams where
  spread_pct : ℚ
  inventory_bias : ℚ
  max_inventory : ℚ
  order_size : ℚ
deriving DecidableEq, Repr

/-- Per-symbol strategy state read by `_refresh_orders`. -/
structure MMState where
  volatility : ℚ
  inventory : ℚ
  orderbook : Option MMOrderBook
deriving DecidableEq, Repr

/-- A quote signal emitted through `generate_signal` (LIMIT, GTC). -/
structure MMSignal where
  side : OrderSide
  quantity : ℚ
  price : ℚ
deriving DecidableEq, Repr

/-- Embedding of `_calculate_fair_price` (market_maker.py lines 153-184):
mid price of the best bid and ask, skewed by `inventory_bias * inventory`;
an empty book side yields 0. -/
def calculateFairPrice (p : MMParams) (st : MMState) (ob : MMOrderBook) : ℚ :=
  match ob.bids, ob.asks with
  | [], _ => 0
  | _, [] => 0
  | b :: _, a :: _ => (b.price + a.price) / 2 + p.inventory_bias * st.inventory

/-- Embedding of `_calculate_spread` (market_maker.py lines 186-222):
base spread scaled by volatility and inventory adjustments, floored at
`fair_price * 0.0001`. -/
def calculateSpread (p : MMParams) (st : MMState) (fairPrice : ℚ) : ℚ :=
  let baseSpread := fairPrice * p.spread_pct
  let volatilityAdjustment := 1 + st.volatility * 2
  let inventoryAdjustment := 1 + |st.inventory| / p.max_inventory * (1 / 2)
  max (baseSpread * volatilityAdjustment * inventoryAdjustment) (fairPrice * (1 / 10000))

/-- Embedding of `_place_bid_order` (market_maker.py lines 224-258): size is
capped at `max_inventory - inventory`; a non-positive cap emits nothing. -/
def placeBidOrder (p : MMParams) (st : MMState) (price : ℚ) : List MMSignal :=
  let maxSize := p.max_inventory - st.inventory
  if maxSize ≤ 0 then []
  else [{ side := OrderSide.BUY, quantity := min p.order_size maxSize, price := price }]

/-- Embedding of `_place_ask_order` (market_maker.py lines 260-294): size is
capped at `max_inventory + inventory`; a non-positive cap emits nothing. -/
def placeAskOrder (p : MMParams) (st : MMState) (price : ℚ) : List MMSignal :=
  let maxSize := p.max_inventory + st.inventory
  if maxSize ≤ 0 then []
  else [{ side := OrderSide.SELL, quantity := min p.order_size maxSize, price := price }]

/-- Embedding of `_refresh_orders` (market_maker.py lines 120-151): with no
orderbook nothing is quoted; otherwise quote bid and ask around the fair
price, each side gated on a POSITIVE quote price before the size gate of the
placement helpers runs. -/
def refreshOrders (p : MMParams) (st : MMState) : List MMSignal :=
  match st.orderbook with
  | none => []
  | some ob =>
      let fairPrice := calculateFairPrice p st ob
      let spread := calculateSpread p st fairPrice
      let quoteBid := fairPrice - spread / 2
      let quoteAsk := fairPrice + spread / 2
      (if quoteBid > 0 then placeBidOrder p st quoteBid else []) ++
      (if quoteAsk > 0 then placeAskOrder p st quoteAsk else [])

/-! Section: Concrete instances used by the per-claim counterexamples and
witnesses. -/

/-- Two fills on one symbol: open long 2 at 10, then sell 1 at 20 (no fees).
The sell opposes the position but only reduces it, so the source adds no
realized P&L, while the spec's closed form realizes `(20 - 10) * 1 = 10`. -/
def demoFillsC1 : List AccFill :=
  [{ symbol := ("BTCUSDT"), side := OrderSide.BUY, quantity := 2, price := 10, commission := 0 },
   { symbol := ("BTCUSDT"), side := OrderSide.SELL, quantity := 1, price := 20, commission := 0 }]

/-- Backtest configuration with zero commission and slippage. -/
def c2Config : BTConfig := { initial_capital := 10000, commission := 0, slippage := 0 }

/-- Backtest state whose only known price is BTCUSDT at 100. -/
def c2State : BTState :=
  { current_time := 1000, current_capital := 10000, positions := [], entry_prices := [],
    trades := [], orders_count := 1, daily_pnl := [], max_drawdown := 0,
    peak_capital := 10000, total_fees := 0, total_slippage := 0,
    current_prices := [(("BTCUSDT"), 100)], rng_index := 0 }

/-- An unfavorable LIMIT BUY: limit price 90 below the current price 100. -/
def c2Order : BTOrder :=
  { symbol := ("BTCUSDT"), side := OrderSide.BUY, type := OrderType.LIMIT, quantity := 1,
    price := some 90, time_in_force := TimeInForce.GTC, status := OrderStatus.NEW,
    executed_qty := 0, cummulative_quote_qty := 0, avg_price := none, created_at := 1000 }

/-- Backtest state that knows no price for any symbol. -/
def c9State : BTState :=
  { current_time := 5, current_capital := 10000, positions := [], entry_prices := [],
    trades := [], orders_count := 0, daily_pnl := [], max_drawdown := 0,
    peak_capital := 10000, total_fees := 0, total_slippage := 0,
    current_prices := [], rng_index := 3 }

/-- A market order on a symbol with no known price. -/
def c9Order : BTOrder :=
  { symbol := ("ETHUSDT"), side := OrderSide.SELL, type := OrderType.MARKET, quantity := 2,
    price := none, time_in_force := TimeInForce.GTC, status := OrderStatus.NEW,
    executed_qty := 0, cummulative_quote_qty := 0, avg_price := none, created_at := 5 }

/-- Risk limits: max position 1000, max daily drawdown 500, max 5 losses. -/
def c4Config : RiskConfig :=
  { max_position_size := 1000, max_daily_drawdown := 500, max_consecutive_losses := 5,
    position_limits := [], max_leverage := 10 }

/-- Risk state sitting exactly on the drawdown boundary: summed daily P&L is
exactly `-max_daily_drawdown`. -/
def c4State : RiskState :=
  { positions := [], daily_pnl := [(("BTCUSDT"), -500)], consecutive_losses := [],
    is_risk_breach := false, risk_breach_reason := (""), events := [],
    risk_checks_performed := 0, risk_events_triggered := 0, signals_rejected := 0 }

/-- A small BUY signal that passes every other check. -/
def c4Signal : RSignal := { symbol := ("BTCUSDT"), side := OrderSide.BUY, quantity := 1 }

/-- Risk state with the breach flag set (used by the C4 witness). -/
def c4BreachState : RiskState :=
  { positions := [], daily_pnl := [], consecutive_losses := [],
    is_risk_breach := true, risk_breach_reason := ("Daily drawdown exceeded"), events := [],
    risk_checks_performed := 0, risk_events_triggered := 0, signals_rejected := 0 }

/-- Empty risk state (used by the C10 witness). -/
def rs0 : RiskState :=
  { positions := [], daily_pnl := [], consecutive_losses := [],
    is_risk_breach := false, risk_breach_reason := (""), events := [],
    risk_checks_performed := 0, risk_events_triggered := 0, signals_rejected := 0 }

/-- A tracked order that already reached the terminal state FILLED. -/
def c6FilledOrder : OMOrder :=
  { symbol := ("BTCUSDT"), order_id := some 7, client_order_id := some ("cid7"),
    status := OrderStatus.FILLED }

/-- OrderManager state tracking the FILLED order under its client id. -/
def c6State : OMState :=
  { active_orders := [(("cid7"), c6FilledOrder)], order_history := [],
    orders_canceled := 0, updates_emitted := [], network_cancel_calls := 0 }

/-- An exchange whose cancel endpoint always succeeds, echoing the order. -/
def okExchange : OMOrder → Except Unit OMOrder := fun o => Except.ok o

/-- A 429 response advertising a one-second retry window. -/
def resp429 : HttpResp := { status := 429, retry_after := some 1, body := 0 }

/-- A successful response carrying body 77. -/
def resp200 : HttpResp := { status := 200, retry_after := none, body := 77 }

/-- A 418 response (the second rate-limit status of the spec). -/
def resp418 : HttpResp := { status := 418, retry_after := some 9, body := 0 }

/-- Market-maker parameters: 0.1% spread, bias 0.1, max inventory 1000,
order size 100 (the defaults of market_maker.py). -/
def c8Params : MMParams :=
  { spread_pct := 1 / 1000, inventory_bias := 1 / 10, max_inventory := 1000, order_size := 100 }

/-- An orderbook with best bid 99 and best ask 101 (mid 100). -/
def c8Book : MMOrderBook := { bids := [{ price := 99, quantity := 1 }],
                              asks := [{ price := 101, quantity := 1 }] }

/-- A heavily short inventory: the bias drives the fair price negative. -/
def c8State : MMState := { volatility := 0, inventory := -2000, orderbook := some c8Book }

/-- A flat-inventory state on the same book (used by the C8 witness). -/
def c8FlatState : MMState := { volatility := 0, inventory := 0, orderbook := some c8Book }

/-! Section: Helper lemmas about the association-list embedding. -/

theorem alookup_aupdate_self {κ α : Type} [DecidableEq κ] (l : List (κ × α)) (k : κ) (v : α) :
    alookup (aupdate l k v) k = some v := by
  induction l with
  | nil => simp [aupdate, alookup]
  | cons p rest ih =>
      obtain ⟨a, b⟩ := p
      by_cases h : a = k
      · simp [aupdate, alookup, h]
      · simp [aupdate, alookup, h, ih]

theorem alookup_aupdate_ne {κ α : Type} [DecidableEq κ] (l : List (κ × α)) (k k' : κ)
    (v : α) (h : k ≠ k') : alookup (aupdate l k v) k' = alookup l k' := by
  induction l with
  | nil => simp [aupdate, alookup, h]
  | cons p rest ih =>
      obtain ⟨a, b⟩ := p
      by_cases ha : a = k
      · subst ha; simp [aupdate, alookup, h]
      · simp [aupdate, alookup, ha, ih]

/-! Section: Lemmas about the accounting embedding (claim C1). -/

theorem accSize_updatePosition (st : AccState) (f : AccFill) (s : String) :
    accSize (updatePosition st f) s =
      accSize st s + (if f.symbol = s then signedQty f else 0) := by
  obtain ⟨sym, side, q, p, c⟩ := f
  by_cases hs : sym = s
  · subst hs
    unfold updatePosition
    cases h : alookup st.positions sym with
    | none =>
        simp only [accSize, alookup_aupdate_self, h, signedQty]
        cases side <;> simp
    | some cp =>
        simp only [accSize, alookup_aupdate_self, h, signedQty]
        cases side <;> simp [add_comm, sub_eq_add_neg]
  · unfold updatePosition
    cases h : alookup st.positions sym with
    | none => simp [accSize, alookup_aupdate_ne _ _ _ _ hs, hs]
    | some cp => simp [accSize, alookup_aupdate_ne _ _ _ _ hs, hs]

theorem accSize_recordFill (st : AccState) (f : AccFill) (s : String) :
    accSize (recordFill st f) s =
      accSize st s + (if f.symbol = s then signedQty f else 0) := by
  have h := accSize_updatePosition { st with trades := st.trades ++ [f] } f s
  simpa [recordFill, accSize, updateDailyPnl] using h

theorem accSize_foldl (fills : List AccFill) :
    ∀ (st : AccState) (s : String),
      accSize (fills.foldl recordFill st) s = accSize st s + signedSum fills s := by
  induction fills with
  | nil => intro st s; simp [signedSum]
  | cons f rest ih =>
      intro st s
      simp only [List.foldl_cons]
      rw [ih, accSize_recordFill]
      simp [signedSum]
      ring

theorem total_pnl_recordFill_eq (st : AccState) (f : AccFill) :
    (recordFill st f).total_pnl = st.total_pnl + amendedRealizedDelta st f := by
  obtain ⟨sym, side, q, p, c⟩ := f
  unfold recordFill updatePosition updateDailyPnl amendedRealizedDelta accSize accEntry
  cases h : alookup st.positions sym with
  | none => simp [h]
  | some cp =>
      simp only [h, Option.map_some, Option.getD_some]
      cases side <;> simp [signedQty, sub_eq_add_neg]

/-- C1, counterexample: on the fill sequence [BUY 2 at 10, SELL 1 at 20] with
zero fees, the accounting code adds no realized P&L (the sell only reduces
the long position, and `_update_position` realizes only when a positive
position reaches zero or below), while the claim's closed form realizes
`(20 - 10) * min(2, 1) * 1 = 10`.  So the realized P&L computed by the code
differs from the closed form the claim asserts. -/
theorem C1_counterexample :
    (applyFills demoFillsC1).total_pnl ≠ specRealizedPnl demoFillsC1 ∧
    (applyFills demoFillsC1).total_pnl = 0 ∧
    specRealizedPnl demoFillsC1 = 10 ∧
    accSize (applyFills demoFillsC1) ("BTCUSDT") = 1 := by
  have hne : OrderSide.SELL ≠ OrderSide.BUY := by decide
  have h0 : (applyFills demoFillsC1).total_pnl = 0 := by
    norm_num [applyFills, demoFillsC1, recordFill, updatePosition, updateDailyPnl,
      AccState.initial, alookup, aupdate, signedQty, hne]
  have h10 : specRealizedPnl demoFillsC1 = 10 := by
    norm_num [specRealizedPnl, demoFillsC1, specClosedFormStep, alookup, aupdate,
      signedQty, hne]
  refine ⟨?_, h0, h10, ?_⟩
  · rw [h0, h10]; norm_num
  · norm_num [accSize, applyFills, demoFillsC1, recordFill, updatePosition, updateDailyPnl,
      AccState.initial, alookup, aupdate, signedQty, hne]

/-- C1 (amended): for every sequence of fills applied through
`AccountingManager`, the final position size of each symbol equals the sum of
signed fill quantities (+qty for BUY, -qty for SELL); realized P&L is added
only on a fill that takes a currently positive (long) position to a new size
of zero or below, and then the amount added equals
`(fillPrice - entryPrice) * oldSize`; no realized P&L is added on partial
reductions of a long position or on any fill against a short position, and
fees are not subtracted from realized P&L (they accumulate separately). -/
theorem C1_position_identity :
    (∀ (fills : List AccFill) (s : String),
      accSize (applyFills fills) s = signedSum fills s) ∧
    (∀ (st : AccState) (f : AccFill),
      (recordFill st f).total_pnl = st.total_pnl + amendedRealizedDelta st f) := by
  constructor
  · intro fills s
    have h := accSize_foldl fills AccState.initial s
    simpa [applyFills, accSize, AccState.initial, alookup] using h
  · exact total_pnl_recordFill_eq

/-- C2: evaluation of the code at the failing input.  A LIMIT BUY with limit
price 90 while the current price is 100 must not fill per the claim (and per
the source's own comments in `_calculate_execution_price`), yet the code
marks it FILLED and records a fill of the full quantity at the CURRENT price
100 — above the buyer's limit.  No order is ever left open: `_process_orders`
is a no-op and there is no IOC/GTC handling. -/
theorem C2_limit_order_fill_bug :
    ((executeOrder (fun _ => 0) c2Config c2State c2Order).2.status = OrderStatus.FILLED) ∧
    ((executeOrder (fun _ => 0) c2Config c2State c2Order).1.trades =
      [{ symbol := ("BTCUSDT"), order_id := 1, trade_id := 1, side := OrderSide.BUY,
         quantity := 1, price := 100, commission := 0, timestamp := 1000 }]) := by
  have hne : OrderSide.BUY ≠ OrderSide.SELL := by decide
  constructor <;>
    norm_num [executeOrder, simulateLatency, calcExecutionPrice, c2Config, c2State,
      c2Order, alookup, aupdate, hne]

/-- C9: in the backtester, executing an order whose symbol has no known
current price (the price lookup yields zero) sets the order status to
REJECTED and leaves the trades list, capital, positions, entry prices and the
fee and slippage totals unchanged. -/
theorem C9_zero_price_rejects (g : ℕ → ℚ) (cfg : BTConfig) (st : BTState) (o : BTOrder)
    (h : (alookup st.current_prices o.symbol).getD 0 = 0) :
    (executeOrder g cfg st o).2.status = OrderStatus.REJECTED ∧
    (executeOrder g cfg st o).1.trades = st.trades ∧
    (executeOrder g cfg st o).1.current_capital = st.current_capital ∧
    (executeOrder g cfg st o).1.positions = st.positions ∧
    (executeOrder g cfg st o).1.entry_prices = st.entry_prices ∧
    (executeOrder g cfg st o).1.total_fees = st.total_fees ∧
    (executeOrder g cfg st o).1.total_slippage = st.total_slippage := by
  have hx : executeOrder g cfg st o =
      ({ st with rng_index := st.rng_index + 1 }, { o with status := OrderStatus.REJECTED }) := by
    unfold executeOrder
    simp only [simulateLatency]
    rw [if_pos h]
  rw [hx]
  exact ⟨rfl, rfl, rfl, rfl, rfl, rfl, rfl⟩

/-- C9, witness: a SELL order on ETHUSDT against a state with no known prices
is rejected and appends no trade. -/
theorem C9_zero_price_rejects_witness :
    (alookup c9State.current_prices c9Order.symbol).getD 0 = 0 ∧
    (executeOrder (fun _ => 0) c2Config c9State c9Order).2.status = OrderStatus.REJECTED ∧
    (executeOrder (fun _ => 0) c2Config c9State c9Order).1.trades = c9State.trades := by
  refine ⟨rfl, ?_, ?_⟩
  · exact (C9_zero_price_rejects (fun _ => 0) c2Config c9State c9Order rfl).1
  · exact (C9_zero_price_rejects (fun _ => 0) c2Config c9State c9Order rfl).2.1

/-- The sampled latency is consumed from the PRNG stream but never influences
the execution outcome: `_execute_order` only sleeps on it. -/
theorem executeOrder_latency_agnostic (g₁ g₂ : ℕ → ℚ) :
    executeOrder g₁ = executeOrder g₂ := rfl

/-- C5: the backtest run is a pure function of (strategy, data, symbol set)
and does not depend on the latency PRNG stream at all — the draws are
consumed (the counter advances identically) but each sampled latency is only
slept away.  In particular, two independent runs from fresh `Backtester`
instances with the same seed (hence the same stream `g`) and the same inputs
produce identical results and identical fill sequences. -/
theorem C5_backtest_deterministic {σ : Type} (g₁ g₂ : ℕ → ℚ) (cfg : BTConfig)
    (strat : σ → BTMarketData → σ × List BTSignal) (s0 : σ)
    (data : List (String × List BTKline)) (symbols : List String) :
    runBacktest g₁ cfg strat s0 data symbols = runBacktest g₂ cfg strat s0 data symbols := rfl

/-- C10: `check_signal` is fail-closed and total.  `runGuarded` is the
embedding of its `try/except` wrapper: for every body, the guarded call
always returns a boolean result; when the body raises, the call returns
`False` (with the state as mutated up to the raise), and when the body
returns normally the result passes through.  The concrete `checkSignal` is
the guarded run of its (total) body. -/
theorem C10_check_signal_fail_closed
    (body : RiskState → Except (Unit × RiskState) (Bool × RiskState)) (st : RiskState) :
    (∀ (e : Unit) (est : RiskState), body st = Except.error (e, est) →
      runGuarded body st = (false, est)) ∧
    (∀ (b : Bool) (rst : RiskState), body st = Except.ok (b, rst) →
      runGuarded body st = (b, rst)) ∧
    (∀ (cfg : RiskConfig) (sig : RSignal),
      checkSignal cfg st sig = runGuarded (checkSignalBody cfg sig) st) := by
  refine ⟨?_, ?_, fun _ _ => rfl⟩
  · intro e est h; simp [runGuarded, h]
  · intro b rst h; simp [runGuarded, h]

/-- C10, witness: a body that raises immediately makes the guarded call
return `False`. -/
theorem C10_fail_closed_witness :
    runGuarded (fun s => Except.error ((), s)) rs0 = (false, rs0) :=
  (C10_check_signal_fail_closed (fun s => Except.error ((), s)) rs0).1 () rs0 rfl

/-! Section: Lemmas about the risk-manager embedding (claim C4). -/

theorem triggerRiskEvent_breach (st : RiskState) (ty sev : String) :
    (triggerRiskEvent st ty sev).is_risk_breach = st.is_risk_breach := rfl

theorem checkPositionLimits_cases (cfg : RiskConfig) (st : RiskState) (sig : RSignal) :
    checkPositionLimits cfg st sig = (true, st) ∨
    (∃ ty sev, checkPositionLimits cfg st sig = (false, triggerRiskEvent st ty sev)) := by
  dsimp only [checkPositionLimits]
  split
  · right; exact ⟨_, _, rfl⟩
  · split
    · split
      · right; exact ⟨_, _, rfl⟩
      · left; rfl
    · left; rfl

theorem checkDailyDrawdown_pass (cfg : RiskConfig) (st : RiskState)
    (h : ¬ totalDailyPnl st < -cfg.max_daily_drawdown) :
    checkDailyDrawdown cfg st = (true, st) := by
  unfold checkDailyDrawdown; rw [if_neg h]

theorem checkDailyDrawdown_fail (cfg : RiskConfig) (st : RiskState)
    (h : totalDailyPnl st < -cfg.max_daily_drawdown) :
    checkDailyDrawdown cfg st =
      (false, { triggerRiskEvent st ("DAILY_DRAWDOWN_EXCEEDED") ("CRITICAL") with
                is_risk_breach := true,
                risk_breach_reason := ("Daily drawdown exceeded") }) := by
  unfold checkDailyDrawdown; rw [if_pos h]

theorem checkConsecutiveLosses_cases (cfg : RiskConfig) (st : RiskState) (sig : RSignal) :
    checkConsecutiveLosses cfg st sig = (true, st) ∨
    (∃ ty sev, checkConsecutiveLosses cfg st sig = (false, triggerRiskEvent st ty sev)) := by
  unfold checkConsecutiveLosses
  by_cases h : (alookup st.consecutive_losses sig.symbol).getD 0 ≥ cfg.max_consecutive_losses
  · right; exact ⟨_, _, by rw [if_pos h]⟩
  · left; rw [if_neg h]

theorem checkLeverageLimits_cases (cfg : RiskConfig) (st : RiskState) :
    checkLeverageLimits cfg st = (true, st) ∨
    (∃ ty sev, checkLeverageLimits cfg st = (false, triggerRiskEvent st ty sev)) := by
  unfold checkLeverageLimits
  by_cases h : cfg.max_leverage < 1
  · right; exact ⟨_, _, by rw [if_pos h]⟩
  · left; rw [if_neg h]

theorem checkSignalCore_breach (cfg : RiskConfig) (st : RiskState) (sig : RSignal)
    (hb : st.is_risk_breach = true) :
    checkSignalCore cfg st sig =
      (false, rejectSignal (triggerRiskEvent (bumpChecks st) ("RISK_BREACH") ("CRITICAL"))) := by
  dsimp only [checkSignalCore]
  rw [show (bumpChecks st).is_risk_breach = true from hb]
  rfl

theorem checkSignalCore_posfail (cfg : RiskConfig) (st : RiskState) (sig : RSignal)
    (hb : st.is_risk_breach = false) (ty sev : String)
    (hp : checkPositionLimits cfg (bumpChecks st) sig =
      (false, triggerRiskEvent (bumpChecks st) ty sev)) :
    checkSignalCore cfg st sig =
      (false, rejectSignal (triggerRiskEvent (bumpChecks st) ty sev)) := by
  dsimp only [checkSignalCore]
  rw [show (bumpChecks st).is_risk_breach = false from hb]
  rw [if_neg (by simp), hp]

theorem checkSignalCore_ddfail (cfg : RiskConfig) (st : RiskState) (sig : RSignal)
    (hb : st.is_risk_breach = false)
    (hp : checkPositionLimits cfg (bumpChecks st) sig = (true, bumpChecks st))
    (hd : totalDailyPnl st < -cfg.max_daily_drawdown) :
    checkSignalCore cfg st sig =
      (false, rejectSignal
        { triggerRiskEvent (bumpChecks st) ("DAILY_DRAWDOWN_EXCEEDED") ("CRITICAL") with
          is_risk_breach := true,
          risk_breach_reason := ("Daily drawdown exceeded") }) := by
  dsimp only [checkSignalCore]
  rw [show (bumpChecks st).is_risk_breach = false from hb]
  rw [if_neg (by simp), hp]
  dsimp only []
  rw [checkDailyDrawdown_fail cfg (bumpChecks st) hd]

theorem checkSignalCore_clfail (cfg : RiskConfig) (st : RiskState) (sig : RSignal)
    (hb : st.is_risk_breach = false)
    (hp : checkPositionLimits cfg (bumpChecks st) sig = (true, bumpChecks st))
    (hd : ¬ totalDailyPnl st < -cfg.max_daily_drawdown) (ty sev : String)
    (hc : checkConsecutiveLosses cfg (bumpChecks st) sig =
      (false, triggerRiskEvent (bumpChecks st) ty sev)) :
    checkSignalCore cfg st sig =
      (false, rejectSignal (triggerRiskEvent (bumpChecks st) ty sev)) := by
  dsimp only [checkSignalCore]
  rw [show (bumpChecks st).is_risk_breach = false from hb]
  rw [if_neg (by simp), hp]
  dsimp only []
  rw [checkDailyDrawdown_pass cfg (bumpChecks st) hd]
  dsimp only []
  rw [hc]

theorem checkSignalCore_levfail (cfg : RiskConfig) (st : RiskState) (sig : RSignal)
    (hb : st.is_risk_breach = false)
    (hp : checkPositionLimits cfg (bumpChecks st) sig = (true, bumpChecks st))
    (hd : ¬ totalDailyPnl st < -cfg.max_daily_drawdown)
    (hc : checkConsecutiveLosses cfg (bumpChecks st) sig = (true, bumpChecks st))
    (ty sev : String)
    (hl : checkLeverageLimits cfg (bumpChecks st) =
      (false, triggerRiskEvent (bumpChecks st) ty sev)) :
    checkSignalCore cfg st sig =
      (false, rejectSignal (triggerRiskEvent (bumpChecks st) ty sev)) := by
  dsimp only [checkSignalCore]
  rw [show (bumpChecks st).is_risk_breach = false from hb]
  rw [if_neg (by simp), hp]
  dsimp only []
  rw [checkDailyDrawdown_pass cfg (bumpChecks st) hd]
  dsimp only []
  rw [hc]
  dsimp only []
  rw [hl]

theorem checkSignalCore_ok (cfg : RiskConfig) (st : RiskState) (sig : RSignal)
    (h : allChecksPass cfg st sig) :
    checkSignalCore cfg st sig = (true, bumpChecks st) := by
  obtain ⟨hb, hp, hd, hcl, hlev⟩ := h
  rcases checkPositionLimits_cases cfg (bumpChecks st) sig with hpe | ⟨ty, sev, hpe⟩
  · dsimp only [checkSignalCore]
    rw [show (bumpChecks st).is_risk_breach = false from hb]
    rw [if_neg (by simp), hpe]
    dsimp only []
    rw [checkDailyDrawdown_pass cfg (bumpChecks st) hd]
    dsimp only [checkConsecutiveLosses]
    rw [if_neg (not_le.mpr (show (alookup (bumpChecks st).consecutive_losses
      sig.symbol).getD 0 < cfg.max_consecutive_losses from hcl))]
    dsimp only [checkLeverageLimits]
    rw [if_neg hlev]
  · rw [hpe] at hp
    simp at hp

theorem checkSignalCore_ok2 (cfg : RiskConfig) (st : RiskState) (sig : RSignal)
    (hb : st.is_risk_breach = false)
    (hp : checkPositionLimits cfg (bumpChecks st) sig = (true, bumpChecks st))
    (hd : ¬ totalDailyPnl st < -cfg.max_daily_drawdown)
    (hc : checkConsecutiveLosses cfg (bumpChecks st) sig = (true, bumpChecks st))
    (hl : checkLeverageLimits cfg (bumpChecks st) = (true, bumpChecks st)) :
    checkSignalCore cfg st sig = (true, bumpChecks st) := by
  dsimp only [checkSignalCore]
  rw [show (bumpChecks st).is_risk_breach = false from hb]
  rw [if_neg (by simp), hp]
  dsimp only []
  rw [checkDailyDrawdown_pass cfg (bumpChecks st) hd]
  dsimp only []
  rw [hc]
  dsimp only []
  rw [hl]

/-- C4, counterexample: with summed daily P&L exactly at `-maxDailyDrawdown`
(here -500 with the limit 500), the condition `sum > -maxDailyDrawdown` of
the claim FAILS, yet `check_signal` accepts the signal and sets no breach —
the source tests `total_daily_pnl < -max_daily_drawdown` strictly, so the
exact boundary passes. -/
theorem C4_counterexample :
    ¬ totalDailyPnl c4State > -c4Config.max_daily_drawdown ∧
    (checkSignal c4Config c4State c4Signal).1 = true ∧
    (checkSignal c4Config c4State c4Signal).2.is_risk_breach = false := by
  have h1 : ¬ totalDailyPnl c4State > -c4Config.max_daily_drawdown := by
    norm_num [totalDailyPnl, c4State, c4Config]
  have h2 : checkSignal c4Config c4State c4Signal = (true, bumpChecks c4State) := by
    have hcs : checkSignal c4Config c4State c4Signal = checkSignalCore c4Config c4State c4Signal := rfl
    rw [hcs]
    refine checkSignalCore_ok c4Config c4State c4Signal ⟨rfl, ?_, ?_, ?_, ?_⟩
    · norm_num [checkPositionLimits, newSizeAfter, bumpChecks, c4State, c4Config, c4Signal,
        alookup]
    · norm_num [totalDailyPnl, c4State, c4Config]
    · norm_num [c4State, c4Signal, c4Config, alookup]
    · norm_num [c4Config]
  exact ⟨h1, by rw [h2], by rw [h2]; rfl⟩

/-- C4 (amended): `check_signal` rejects every signal while the breach flag
is set, and the flag can only become set through the daily-drawdown check;
`reset_risk_breach` clears it.  Whenever, with the earlier checks passing,
the summed daily P&L is STRICTLY below `-maxDailyDrawdown`, the signal is
rejected, the breach flag is set with the daily-drawdown reason, and a
CRITICAL `DAILY_DRAWDOWN_EXCEEDED` risk event is emitted.  After a reset, a
signal that passes all checks is accepted.  (The original claim's non-strict
boundary — rejection already when the sum merely fails `sum >
-maxDailyDrawdown` — does not hold; see the counterexample.) -/
theorem C4_breach_gate_drawdown (cfg : RiskConfig) (st : RiskState) (sig : RSignal) :
    (st.is_risk_breach = true →
      (checkSignal cfg st sig).1 = false ∧
      (checkSignal cfg st sig).2.is_risk_breach = true) ∧
    ((checkSignal cfg st sig).2.is_risk_breach = true →
      st.is_risk_breach = true ∨ totalDailyPnl st < -cfg.max_daily_drawdown) ∧
    (st.is_risk_breach = false →
      checkPositionLimits cfg (bumpChecks st) sig = (true, bumpChecks st) →
      totalDailyPnl st < -cfg.max_daily_drawdown →
      (checkSignal cfg st sig).1 = false ∧
      (checkSignal cfg st sig).2.is_risk_breach = true ∧
      (checkSignal cfg st sig).2.risk_breach_reason = ("Daily drawdown exceeded") ∧
      (checkSignal cfg st sig).2.events =
        st.events ++ [{ event_type := ("DAILY_DRAWDOWN_EXCEEDED"),
                        severity := ("CRITICAL") }]) ∧
    ((resetRiskBreach st).is_risk_breach = false) ∧
    (allChecksPass cfg (resetRiskBreach st) sig →
      (checkSignal cfg (resetRiskBreach st) sig).1 = true) := by
  have hcs : ∀ (c : RiskConfig) (s : RiskState) (g : RSignal),
      checkSignal c s g = checkSignalCore c s g := fun _ _ _ => rfl
  refine ⟨?_, ?_, ?_, rfl, ?_⟩
  · intro hb
    rw [hcs, checkSignalCore_breach cfg st sig hb]
    exact ⟨rfl, hb⟩
  · intro h2
    by_cases hb : st.is_risk_breach = true
    · exact Or.inl hb
    · have hbf : st.is_risk_breach = false := by revert hb; cases st.is_risk_breach <;> simp
      by_cases hd : totalDailyPnl st < -cfg.max_daily_drawdown
      · exact Or.inr hd
      · exfalso
        rw [hcs] at h2
        rcases checkPositionLimits_cases cfg (bumpChecks st) sig with hpe | ⟨ty, sev, hpe⟩
        · rcases checkConsecutiveLosses_cases cfg (bumpChecks st) sig with
            hce | ⟨ty2, sev2, hce⟩
          · rcases checkLeverageLimits_cases cfg (bumpChecks st) with hle | ⟨ty3, sev3, hle⟩
            · rw [checkSignalCore_ok2 cfg st sig hbf hpe hd hce hle] at h2
              simp [bumpChecks, hbf] at h2
            · rw [checkSignalCore_levfail cfg st sig hbf hpe hd hce ty3 sev3 hle] at h2
              simp [rejectSignal, triggerRiskEvent, bumpChecks, hbf] at h2
          · rw [checkSignalCore_clfail cfg st sig hbf hpe hd ty2 sev2 hce] at h2
            simp [rejectSignal, triggerRiskEvent, bumpChecks, hbf] at h2
        · rw [checkSignalCore_posfail cfg st sig hbf ty sev hpe] at h2
          simp [rejectSignal, triggerRiskEvent, bumpChecks, hbf] at h2
  · intro hb hp hd
    rw [hcs, checkSignalCore_ddfail cfg st sig hb hp hd]
    refine ⟨rfl, rfl, rfl, ?_⟩
    simp [rejectSignal, triggerRiskEvent, bumpChecks]
  · intro h
    rw [hcs, checkSignalCore_ok cfg (resetRiskBreach st) sig h]

/-- C4, witness: with the breach flag set every signal is rejected, and after
`reset_risk_breach` a signal passing all checks is accepted. -/
theorem C4_breach_gate_drawdown_witness :
    (checkSignal c4Config c4BreachState c4Signal).1 = false ∧
    (checkSignal c4Config (resetRiskBreach c4BreachState) c4Signal).1 = true := by
  constructor
  · exact ((C4_breach_gate_drawdown c4Config c4BreachState c4Signal).1 rfl).1
  · refine (C4_breach_gate_drawdown c4Config c4BreachState c4Signal).2.2.2.2 ⟨rfl, ?_, ?_, ?_, ?_⟩
    · norm_num [checkPositionLimits, newSizeAfter, bumpChecks, resetRiskBreach,
        c4BreachState, c4Config, c4Signal, alookup]
    · norm_num [totalDailyPnl, resetRiskBreach, c4BreachState, c4Config]
    · norm_num [resetRiskBreach, c4BreachState, c4Signal, c4Config, alookup]
    · norm_num [c4Config]

/-! Section: Lemmas about the rate-limiter embedding (claim C3). -/

theorem consume_snd_tokens (b : TokenBucket) (now n : ℚ) :
    (b.consume now n).2.tokens =
      if (b.refill now).tokens ≥ n then (b.refill now).tokens - n
      else (b.refill now).tokens := by
  dsimp only [TokenBucket.consume]
  by_cases h : (b.refill now).tokens ≥ n
  · rw [if_pos h, if_pos h]
  · rw [if_neg h, if_neg h]

theorem consume_fst (b : TokenBucket) (now n : ℚ) :
    (b.consume now n).1 = decide ((b.refill now).tokens ≥ n) := by
  dsimp only [TokenBucket.consume]
  by_cases h : (b.refill now).tokens ≥ n
  · rw [if_pos h]; simp [h]
  · rw [if_neg h]; simp [h]

theorem checkRequest_buckets (st : RateLimiterState) (now weight : ℚ) :
    (checkRequest st now weight).2.req_second = (st.req_second.consume now 1).2 ∧
    (checkRequest st now weight).2.req_minute = (st.req_minute.consume now 1).2 ∧
    (checkRequest st now weight).2.req_day = (st.req_day.consume now 1).2 ∧
    (checkRequest st now weight).2.w_second = (st.w_second.consume now weight).2 ∧
    (checkRequest st now weight).2.w_minute = (st.w_minute.consume now weight).2 ∧
    (checkRequest st now weight).2.w_day = (st.w_day.consume now weight).2 ∧
    ((checkRequest st now weight).1 =
      ((st.req_second.consume now 1).1 && (st.req_minute.consume now 1).1 &&
       (st.req_day.consume now 1).1 && (st.w_second.consume now weight).1 &&
       (st.w_minute.consume now weight).1 && (st.w_day.consume now weight).1)) := by
  dsimp only [checkRequest]
  by_cases h : ((st.req_second.consume now 1).1 && (st.req_minute.consume now 1).1 &&
      (st.req_day.consume now 1).1 && (st.w_second.consume now weight).1 &&
      (st.w_minute.consume now weight).1 && (st.w_day.consume now weight).1) = true
  · rw [if_pos h]
    exact ⟨rfl, rfl, rfl, rfl, rfl, rfl, h.symm⟩
  · rw [if_neg h]
    refine ⟨rfl, rfl, rfl, rfl, rfl, rfl, ?_⟩
    simp only [Bool.not_eq_true] at h
    exact h.symm

/-- C3, counterexample: against the fresh default limiter a single
`check_request(weight = 2000)` fails (2000 exceeds the 1200-token
weight-per-second bucket) — yet the request-per-second bucket has been
debited from 10 to 9 tokens and the weight-per-minute bucket from 6000 to
4000: on a False return the buckets that individually had room keep their
debits, so the claim's `no bucket has been debited at all` is false. -/
theorem C3_counterexample :
    (checkRequest (defaultRateLimiter 0) 0 2000).1 = false ∧
    (defaultRateLimiter 0).req_second.tokens = 10 ∧
    (checkRequest (defaultRateLimiter 0) 0 2000).2.req_second.tokens = 9 ∧
    (checkRequest (defaultRateLimiter 0) 0 2000).2.w_minute.tokens = 4000 := by
  refine ⟨?_, rfl, ?_, ?_⟩ <;>
    norm_num [checkRequest, TokenBucket.consume, TokenBucket.refill, TokenBucket.fresh,
      defaultRateLimiter]

/-- C3 (amended): `check_request` returns a boolean without waiting (it is a
single pass over the six buckets); it succeeds exactly when every bucket,
after its continuous refill, holds enough tokens (1 request token for the
three request buckets, `weight` for the three weight buckets); and each
bucket is debited INDEPENDENTLY — on success all six are debited, while on
failure every bucket that individually had enough tokens has still been
debited (nothing is rolled back, so the debit is not atomic across
buckets). -/
theorem C3_try_acquire_debits (st : RateLimiterState) (now weight : ℚ) :
    ((checkRequest st now weight).1 = true ↔
      ((st.req_second.refill now).tokens ≥ 1 ∧ (st.req_minute.refill now).tokens ≥ 1 ∧
       (st.req_day.refill now).tokens ≥ 1 ∧ (st.w_second.refill now).tokens ≥ weight ∧
       (st.w_minute.refill now).tokens ≥ weight ∧ (st.w_day.refill now).tokens ≥ weight)) ∧
    ((checkRequest st now weight).2.req_second.tokens =
      if (st.req_second.refill now).tokens ≥ 1 then (st.req_second.refill now).tokens - 1
      else (st.req_second.refill now).tokens) ∧
    ((checkRequest st now weight).2.req_minute.tokens =
      if (st.req_minute.refill now).tokens ≥ 1 then (st.req_minute.refill now).tokens - 1
      else (st.req_minute.refill now).tokens) ∧
    ((checkRequest st now weight).2.req_day.tokens =
      if (st.req_day.refill now).tokens ≥ 1 then (st.req_day.refill now).tokens - 1
      else (st.req_day.refill now).tokens) ∧
    ((checkRequest st now weight).2.w_second.tokens =
      if (st.w_second.refill now).tokens ≥ weight then
        (st.w_second.refill now).tokens - weight
      else (st.w_second.refill now).tokens) ∧
    ((checkRequest st now weight).2.w_minute.tokens =
      if (st.w_minute.refill now).tokens ≥ weight then
        (st.w_minute.refill now).tokens - weight
      else (st.w_minute.refill now).tokens) ∧
    ((checkRequest st now weight).2.w_day.tokens =
      if (st.w_day.refill now).tokens ≥ weight then
        (st.w_day.refill now).tokens - weight
      else (st.w_day.refill now).tokens) := by
  obtain ⟨h1, h2, h3, h4, h5, h6, h7⟩ := checkRequest_buckets st now weight
  refine ⟨?_, ?_, ?_, ?_, ?_, ?_, ?_⟩
  · rw [h7]
    simp only [consume_fst, Bool.and_eq_true, decide_eq_true_eq, and_assoc]
  · rw [h1, consume_snd_tokens]
  · rw [h2, consume_snd_tokens]
  · rw [h3, consume_snd_tokens]
  · rw [h4, consume_snd_tokens]
  · rw [h5, consume_snd_tokens]
  · rw [h6, consume_snd_tokens]

/-- C6, counterexample: the FILLED (terminal) order tracked under `cid7` is
canceled with a network round-trip (`rest_client.cancel_order` is called:
the call count rises to 1), contradicting `returns success without
performing any network call`; and a terminal order no longer tracked returns
False, not success. -/
theorem C6_counterexample :
    OrderStatus.isTerminal c6FilledOrder.status = true ∧
    (cancelOrder okExchange c6State ("cid7")).1 = true ∧
    (cancelOrder okExchange c6State ("cid7")).2.network_cancel_calls = 1 ∧
    (cancelOrder okExchange { c6State with active_orders := [] } ("cid7")).1 = false := by
  refine ⟨rfl, ?_, ?_, ?_⟩ <;>
    simp [cancelOrder, okExchange, c6State, c6FilledOrder, alookup, aremove]

/-- C6 (amended): `cancel_order` keys on presence in `active_orders` only and
never inspects the order's status.  An untracked id returns False without a
network call; for every tracked order — terminal or not — the exchange is
called; on success the order is dropped from `active_orders`, appended to
history and to the emitted updates with status CANCELED, and the call
returns True; an exchange error returns False leaving the maps unchanged. -/
theorem C6_cancel_behavior (exchange : OMOrder → Except Unit OMOrder) (st : OMState)
    (oid : String) :
    (alookup st.active_orders oid = none → cancelOrder exchange st oid = (false, st)) ∧
    (∀ o, alookup st.active_orders oid = some o → exchange o = Except.error () →
      cancelOrder exchange st oid =
        (false, { st with network_cancel_calls := st.network_cancel_calls + 1 })) ∧
    (∀ o co, alookup st.active_orders oid = some o → exchange o = Except.ok co →
      cancelOrder exchange st oid =
        (true,
          { st with
              active_orders := aremove st.active_orders oid,
              order_history := st.order_history ++
                [{ co with status := OrderStatus.CANCELED }],
              orders_canceled := st.orders_canceled + 1,
              updates_emitted := st.updates_emitted ++
                [{ co with status := OrderStatus.CANCELED }],
              network_cancel_calls := st.network_cancel_calls + 1 })) := by
  refine ⟨?_, ?_, ?_⟩
  · intro h; dsimp only [cancelOrder]; rw [h]
  · intro o h hex; dsimp only [cancelOrder]; rw [h]; dsimp only []; rw [hex]
  · intro o co h hex; dsimp only [cancelOrder]; rw [h]; dsimp only []; rw [hex]

/-- C6, witness: canceling the tracked FILLED order succeeds, removes it,
marks the exchange's echoed order CANCELED and emits the update. -/
theorem C6_cancel_behavior_witness :
    cancelOrder okExchange c6State ("cid7") =
      (true,
        { active_orders := [],
          order_history := [{ c6FilledOrder with status := OrderStatus.CANCELED }],
          orders_canceled := 1,
          updates_emitted := [{ c6FilledOrder with status := OrderStatus.CANCELED }],
          network_cancel_calls := 1 }) := by
  have h := (C6_cancel_behavior okExchange c6State ("cid7")).2.2 c6FilledOrder c6FilledOrder
    rfl rfl
  rw [h]
  simp [c6State, aremove]

/-- C7, counterexample: a response script of three consecutive 429s followed
by a 200 returns the parsed body after three slept seconds — the second (and
third) 429 is retried again instead of being surfaced as a rate-limit
failure; and a 418 raises the generic API error immediately: its
`Retry-After` header is never read, no sleep and no retry happen. -/
theorem C7_counterexample :
    makeRequest [resp429, resp429, resp429, resp200] 0 = ReqOutcome.ok 77 3 ∧
    makeRequest [resp418, resp200] 0 = ReqOutcome.apiError 418 := by
  constructor <;> rfl

/-- C7 (amended): on HTTP 429 the client reads `Retry-After` (defaulting to
1 second), sleeps exactly that long and retries the same request — with no
retry cap, so consecutive 429s each trigger another sleep-and-retry and are
never surfaced; any other status of 400 or above (418 included) raises
immediately with no retry; a status below 400 returns the parsed body. -/
theorem C7_rate_limit_retry (r : HttpResp) (rest : List HttpResp) (slept : ℕ) :
    (r.status = 429 →
      makeRequest (r :: rest) slept = makeRequest rest (slept + r.retry_after.getD 1)) ∧
    (r.status ≠ 429 → r.status ≥ 400 →
      makeRequest (r :: rest) slept = ReqOutcome.apiError r.status) ∧
    (r.status < 400 → makeRequest (r :: rest) slept = ReqOutcome.ok r.body slept) := by
  refine ⟨?_, ?_, ?_⟩
  · intro h; dsimp only [makeRequest]; rw [if_pos h]
  · intro h1 h2; dsimp only [makeRequest]; rw [if_neg h1, if_pos h2]
  · intro h; dsimp only [makeRequest]
    rw [if_neg (by omega), if_neg (by omega)]

/-- C7, witness: a single 429 with `Retry-After: 1` turns into a retry of
the remaining script with one second slept. -/
theorem C7_rate_limit_retry_witness :
    makeRequest [resp429, resp200] 0 = makeRequest [resp200] (0 + 1) :=
  (C7_rate_limit_retry resp429 [resp200] 0).1 rfl

/-- C8, counterexample: with default parameters and inventory -2000 on a
99/101 book, the fair price is -100 and the bid quote price is negative, so
`_refresh_orders` emits NO bid — although the claim's bid size
`min(orderSize, maxInventory - inventory) = min(100, 3000) = 100` is
positive, so per the claim a bid should be quoted. -/
theorem C8_counterexample :
    refreshOrders c8Params c8State = [] ∧
    min c8Params.order_size (c8Params.max_inventory - c8State.inventory) = 100 := by
  constructor
  · norm_num [refreshOrders, c8Params, c8State, c8Book, calculateFairPrice, calculateSpread,
      placeBidOrder, placeAskOrder]
  · norm_num [c8Params, c8State]

/-- C8 (amended): on a quote refresh with an orderbook present, a side is
quoted if and only if BOTH its computed size cap and its computed quote
price are positive; when quoted, the bid is at `fair - spread/2` with size
`min(orderSize, maxInventory - inventory)` and the ask at `fair + spread/2`
with size `min(orderSize, maxInventory + inventory)`. -/
theorem C8_quote_rules (p : MMParams) (st : MMState) (ob : MMOrderBook)
    (h : st.orderbook = some ob) :
    refreshOrders p st =
      ((if calculateFairPrice p st ob -
            calculateSpread p st (calculateFairPrice p st ob) / 2 > 0 ∧
            p.max_inventory - st.inventory > 0 then
          [{ side := OrderSide.BUY,
             quantity := min p.order_size (p.max_inventory - st.inventory),
             price := calculateFairPrice p st ob -
               calculateSpread p st (calculateFairPrice p st ob) / 2 }]
        else []) ++
       (if calculateFairPrice p st ob +
            calculateSpread p st (calculateFairPrice p st ob) / 2 > 0 ∧
            p.max_inventory + st.inventory > 0 then
          [{ side := OrderSide.SELL,
             quantity := min p.order_size (p.max_inventory + st.inventory),
             price := calculateFairPrice p st ob +
               calculateSpread p st (calculateFairPrice p st ob) / 2 }]
        else [])) := by
  dsimp only [refreshOrders]
  rw [h]
  dsimp only [placeBidOrder, placeAskOrder]
  congr 1
  · by_cases h1 : calculateFairPrice p st ob -
        calculateSpread p st (calculateFairPrice p st ob) / 2 > 0
    · rw [if_pos h1]
      by_cases h2 : p.max_inventory - st.inventory ≤ 0
      · rw [if_pos h2, if_neg (fun hc => absurd hc.2 (not_lt.mpr h2))]
      · rw [if_neg h2, if_pos ⟨h1, not_le.mp h2⟩]
    · rw [if_neg h1, if_neg (fun hc => h1 hc.1)]
  · by_cases h1 : calculateFairPrice p st ob +
        calculateSpread p st (calculateFairPrice p st ob) / 2 > 0
    · rw [if_pos h1]
      by_cases h2 : p.max_inventory + st.inventory ≤ 0
      · rw [if_pos h2, if_neg (fun hc => absurd hc.2 (not_lt.mpr h2))]
      · rw [if_neg h2, if_pos ⟨h1, not_le.mp h2⟩]
    · rw [if_neg h1, if_neg (fun hc => h1 hc.1)]

/-- C8, witness: with flat inventory on the 99/101 book both sides are
quoted symmetrically around the fair price 100 with spread 1/10. -/
theorem C8_quote_rules_witness :
    refreshOrders c8Params c8FlatState =
      [{ side := OrderSide.BUY, quantity := 100, price := 1999 / 20 },
       { side := OrderSide.SELL, quantity := 100, price := 2001 / 20 }] := by
  have h := C8_quote_rules c8Params c8FlatState c8Book rfl
  rw [h]
  norm_num [calculateFairPrice, calculateSpread, c8Params, c8FlatState, c8Book]

end TradeBot
